import Mathlib

/-!
Verification of the xapian-core backend interface (`common/database.h`) and the
value-range posting-list cursor (`matcher/valuerangepostlist.cc`).

Modelling conventions:
* `Xapian::docid`, `Xapian::doccount`, `Xapian::valueno` are modelled as `Nat`.
* `Xapian::weight` is only ever the exact literal `0` in this code, so it is
  modelled as `Int`.
* document values are byte strings (`std::string`), modelled as `String` with
  an explicit byte-wise lexicographic comparison `strLE` mirroring
  `std::string::operator<=`.
* a C++ method that can raise `Xapian::DocNotFoundError` is modelled as
  returning `Option` (`none` = the error was thrown).
* `Assert(cond)` (omassert) is the fatal programming-error signal of the error
  taxonomy; an operation whose assertion fails is modelled as returning `none`
  at the outer `Option` layer.
-/

namespace Xapian

/-- Byte-wise lexicographic order on character lists, mirroring how
`std::string` compares byte strings. -/
def bytesLE : List Char → List Char → Bool
  | [], _ => true
  | _ :: _, [] => false
  | a :: as, b :: bs =>
    if a < b then true
    else if b < a then false
    else bytesLE as bs

/-- Model of `std::string` comparison `a <= b` used by
`v >= begin && v <= end` in `ValueRangePostList`. -/
def strLE (a b : String) : Bool := bytesLE a.data b.data

/-- Model of omassert `Assert`: a failed assertion is the fatal
programming-error signal, modelled as `none`. -/
def assertSignal (b : Bool) : Option Unit := if b then some () else none

/-- Model of a `LeafPostList` as manufactured by
`Database::Internal::open_post_list`: the documents it will yield and whether
it is already terminated. -/
structure LeafPostList where
  docs : List Nat
  terminated : Bool
deriving DecidableEq

/-- Modelled from the spec: `EmptyPostList` (from `emptypostlist.h`, which is
not among the sources) is the "(empty) postlist" comment of
`open_post_list` — an empty cursor, immediately terminated, yielding zero
documents. -/
def EmptyPostList : LeafPostList := { docs := [], terminated := true }

/-- Model of a `Xapian::Document::Internal` as used by the value-range cursor:
`get_value` by value-slot number, returning `""` when no value with that
number is present (`include/xapian/document.h`). -/
def DocValues : Type := Nat → String

/-- Model of `Xapian::Database::Internal` (`common/database.h`): the virtual
methods a concrete backend supplies, as far as the verified code reads them.
`open_document did lazy` returns `none` when the backend raises
`Xapian::DocNotFoundError`. -/
structure DatabaseInternal where
  term_exists : String → Bool
  do_open_post_list : String → LeafPostList
  open_document : Nat → Bool → Option DocValues
  get_doccount : Nat
  get_lastdocid : Nat

/-- `Database::Internal::open_post_list` (`database.h` lines 188-197): if the
term does not exist, return a fresh `EmptyPostList` rather than asking the
backend; otherwise defer to the virtual `do_open_post_list`. -/
def DatabaseInternal.open_post_list (d : DatabaseInternal) (tname : String) : LeafPostList :=
  if !d.term_exists tname then EmptyPostList
  else d.do_open_post_list tname

/-- Default `Database::Internal::flush` (`database.h`): `Assert(false)` — a
writable backend should have overridden it. -/
def DatabaseInternal.flush (_ : DatabaseInternal) : Option Unit :=
  assertSignal false

/-- Default `Database::Internal::add_document`: `Assert(false); return 0;`. -/
def DatabaseInternal.add_document (_ : DatabaseInternal) (_ : DocValues) : Option Nat :=
  (assertSignal false).map fun _ => 0

/-- Default `Database::Internal::delete_document`: `Assert(false)`. -/
def DatabaseInternal.delete_document (_ : DatabaseInternal) (_ : Nat) : Option Unit :=
  assertSignal false

/-- Default `Database::Internal::replace_document`: `Assert(false)`. -/
def DatabaseInternal.replace_document (_ : DatabaseInternal) (_ : Nat) (_ : DocValues) :
    Option Unit :=
  assertSignal false

/-- State of a `ValueRangePostList` (fields as used by
`matcher/valuerangepostlist.cc`): `db = none` models the `db = NULL` state
(`at_end`); `current` is the current docid (`0` before the first advance);
`lastdocid` and `db_size` are the values cached from the backend at
construction; the range test is `begin <= value <= end_` on slot `valno`. -/
structure ValueRangePostList where
  db : Option DatabaseInternal
  current : Nat
  lastdocid : Nat
  db_size : Nat
  valno : Nat
  begin : String
  end_ : String

/-- Modelled from the spec: the constructor lives in `valuerangepostlist.h`,
which is not among the sources.  Per the spec a fresh cursor is Unstarted
(docid `0` is the reserved "no document" id), holds its backend, and caches
the collection size and last docid for its estimates. -/
def ValueRangePostList.init (db : DatabaseInternal) (valno : Nat) (b e : String) :
    ValueRangePostList :=
  { db := some db, current := 0, lastdocid := db.get_lastdocid,
    db_size := db.get_doccount, valno := valno, begin := b, end_ := e }

/-- Outcome of the `while` loop of `ValueRangePostList::next`: positioned at a
docid, or loop exhausted with the final value of `current`. -/
inductive NextResult where
  | positioned (c : Nat)
  | exhausted (c : Nat)
deriving DecidableEq

/-- The `while (current < lastdocid && ++current != 0)` loop of
`ValueRangePostList::next` (`valuerangepostlist.cc` lines 107-124).  Both
`open_document` calls sit in one try-block: a `DocNotFoundError` from either
(the lazy probe, or the non-lazy re-check done when the value is empty)
continues the scan.  The `++current != 0` guard is the unsigned-wrap check of
the source, vacuous for `Nat`. -/
def nextLoop (db : DatabaseInternal) (valno : Nat) (b e : String) (lastdocid : Nat)
    (current : Nat) : NextResult :=
  if _h : current < lastdocid ∧ current + 1 ≠ 0 then
    match db.open_document (current + 1) true with
    | some doc =>
      if strLE b (doc valno) && strLE (doc valno) e then
        if doc valno = "" then
          match db.open_document (current + 1) false with
          | some _ => NextResult.positioned (current + 1)
          | none => nextLoop db valno b e lastdocid (current + 1)
        else NextResult.positioned (current + 1)
      else nextLoop db valno b e lastdocid (current + 1)
    | none => nextLoop db valno b e lastdocid (current + 1)
  else NextResult.exhausted current
termination_by lastdocid - current
decreasing_by all_goals omega

/-- `ValueRangePostList::next` (lines 102-127): `Assert(db)`, run the scan
loop, and on exhaustion set `db = NULL` (terminate). -/
def ValueRangePostList.next (p : ValueRangePostList) (_w_min : Int) :
    Option ValueRangePostList :=
  match p.db with
  | none => none
  | some db =>
    match nextLoop db p.valno p.begin p.end_ p.lastdocid p.current with
    | NextResult.positioned c => some { p with current := c }
    | NextResult.exhausted c => some { p with current := c, db := none }

/-- `ValueRangePostList::skip_to` (lines 129-136): `Assert(db)`; a no-op if
`did <= current`, otherwise restart the scan from `did - 1`. -/
def ValueRangePostList.skip_to (p : ValueRangePostList) (did : Nat) (w_min : Int) :
    Option ValueRangePostList :=
  match p.db with
  | none => none
  | some _ =>
    if did ≤ p.current then some p
    else ValueRangePostList.next { p with current := did - 1 } w_min

/-- `ValueRangePostList::check` (lines 138-166): `Assert(db)`; returns the
updated cursor and the `valid` flag.  `did <= current` answers valid
immediately; `did > lastdocid` terminates with valid; otherwise position at
`did`, probe it lazily, and report valid iff the value is in range —
a `DocNotFoundError` from the probe is caught and reported as `valid = false`. -/
def ValueRangePostList.check (p : ValueRangePostList) (did : Nat) (_w_min : Int) :
    Option (ValueRangePostList × Bool) :=
  match p.db with
  | none => none
  | some db =>
    if did ≤ p.current then some (p, true)
    else if p.lastdocid < did then some ({ p with db := none }, true)
    else
      match db.open_document did true with
      | some doc =>
        if strLE p.begin (doc p.valno) && strLE (doc p.valno) p.end_ then
          some ({ p with current := did }, true)
        else some ({ p with current := did }, false)
      | none => some ({ p with current := did }, false)

/-- `ValueRangePostList::at_end` (lines 168-172): `db == NULL`. -/
def ValueRangePostList.at_end (p : ValueRangePostList) : Bool := p.db.isNone

/-- `ValueRangePostList::get_docid` (lines 59-65): `Assert(current);
Assert(db); return current;`. -/
def ValueRangePostList.get_docid (p : ValueRangePostList) : Option Nat :=
  if p.current ≠ 0 ∧ p.db.isSome then some p.current else none

/-- `ValueRangePostList::get_termfreq_min` (lines 31-35): `return 0`. -/
def ValueRangePostList.get_termfreq_min (_ : ValueRangePostList) : Nat := 0

/-- `ValueRangePostList::get_termfreq_est` (lines 37-44): `return db_size / 2`. -/
def ValueRangePostList.get_termfreq_est (p : ValueRangePostList) : Nat := p.db_size / 2

/-- `ValueRangePostList::get_termfreq_max` (lines 46-51): `return db_size`. -/
def ValueRangePostList.get_termfreq_max (p : ValueRangePostList) : Nat := p.db_size

/-- `ValueRangePostList::get_maxweight` (lines 53-57): `return 0` (no
assertion). -/
def ValueRangePostList.get_maxweight (_ : ValueRangePostList) : Int := 0

/-- `ValueRangePostList::get_weight` (lines 67-72): `Assert(db); return 0;`. -/
def ValueRangePostList.get_weight (p : ValueRangePostList) : Option Int :=
  match p.db with
  | none => none
  | some _ => some 0

/-- `ValueRangePostList::recalc_maxweight` (lines 81-86): `Assert(db);
return 0;`. -/
def ValueRangePostList.recalc_maxweight (p : ValueRangePostList) : Option Int :=
  match p.db with
  | none => none
  | some _ => some 0

/-- `ValueRangePostList::read_position_list` (lines 88-93): `Assert(db);
return NULL;`.  The inner `Option` is the returned `PositionList*`
(`none` = `NULL`). -/
def ValueRangePostList.read_position_list (p : ValueRangePostList) :
    Option (Option (List Nat)) :=
  match p.db with
  | none => none
  | some _ => some none

/-- `ValueRangePostList::open_position_list` (lines 95-100): `Assert(db);
return NULL;`. -/
def ValueRangePostList.open_position_list (p : ValueRangePostList) :
    Option (Option (List Nat)) :=
  match p.db with
  | none => none
  | some _ => some none

/-- Modelled from the spec: how a `NULL` `PositionList*` is consumed is not in
the sources; the spec says predicates with no positional concept yield an
empty position sequence, so `NULL` denotes the empty sequence of positions. -/
def positionsOf : Option (List Nat) → List Nat
  | none => []
  | some l => l

/-- The property of docid `c` that makes the scan loop of
`ValueRangePostList::next` stop at `c`: the lazy open succeeds, the value of
slot `valno` is inside `[b, e]`, and — when that value is empty — the non-lazy
re-open also succeeds (the document really exists). -/
def nextMatch (db : DatabaseInternal) (valno : Nat) (b e : String) (c : Nat) : Prop :=
  ∃ doc, db.open_document c true = some doc ∧
    (strLE b (doc valno) && strLE (doc valno) e) = true ∧
    (doc valno = "" → db.open_document c false ≠ none)

/-- Characterisation of one run of the scan loop of `next` starting at `cur`:
if it stops positioned at `c` then `c` is the first docid after `cur` (and
not beyond `lastdocid`) satisfying `nextMatch`; if it exhausts, no docid in
`(cur, lastdocid]` satisfies `nextMatch` and `current` ends at
`max cur lastdocid`. -/
def scanSpec (db : DatabaseInternal) (valno : Nat) (b e : String) (last cur : Nat) : Prop :=
  (∀ c, nextLoop db valno b e last cur = NextResult.positioned c →
      cur < c ∧ c ≤ last ∧ nextMatch db valno b e c ∧
        ∀ i, cur < i → i < c → ¬ nextMatch db valno b e i) ∧
  (∀ c, nextLoop db valno b e last cur = NextResult.exhausted c →
      c = max cur last ∧ ∀ i, cur < i → i ≤ last → ¬ nextMatch db valno b e i)

/-- The configuration on which `check` and `skip_to` genuinely disagree: the
lazy open of `did` succeeds but hands back an empty value that lies inside the
range, while the non-lazy open reports `DocNotFoundError` (the document
vanished).  `next` re-checks existence in that case and skips the document;
`check` does not re-check and reports a definite match. -/
def checkHazard (db : DatabaseInternal) (valno : Nat) (b e : String) (did : Nat) : Prop :=
  ∃ doc, db.open_document did true = some doc ∧ doc valno = "" ∧
    (strLE b (doc valno) && strLE (doc valno) e) = true ∧
    db.open_document did false = none

/-- Slot-3 values of the five documents of the scenario of C7. -/
def demoValues (d : Nat) : DocValues := fun slot =>
  if slot = 3 then
    (match d with
     | 1 => "050"
     | 2 => "150"
     | 3 => "200"
     | 4 => "250"
     | _ => "")
  else ""

/-- Backend of the C7 scenario: five documents, ids 1 to 5, slot-3 values
"050", "150", "200", "250", "". -/
def demoDb : DatabaseInternal :=
  { term_exists := fun _ => false
    do_open_post_list := fun _ => EmptyPostList
    open_document := fun d _ => if 1 ≤ d ∧ d ≤ 5 then some (demoValues d) else none
    get_doccount := 5
    get_lastdocid := 5 }

/-- Value-range cursor of the C7 scenario: slot 3, range ["100", "200"]. -/
def demoCursor : ValueRangePostList := ValueRangePostList.init demoDb 3 "100" "200"

/-- The C7 cursor positioned at docid `c`. -/
def demoAt (c : Nat) : ValueRangePostList :=
  { db := some demoDb, current := c, lastdocid := 5, db_size := 5, valno := 3,
    begin := "100", end_ := "200" }

/-- The C7 cursor after exhausting the collection (Terminated, having passed
docid 5). -/
def demoDead : ValueRangePostList :=
  { db := none, current := 5, lastdocid := 5, db_size := 5, valno := 3,
    begin := "100", end_ := "200" }

/-- Backend for the C1 witness: only the term "apple" exists; the term
"empty-term" has a real (but empty, terminated) posting list. -/
def c1Db : DatabaseInternal :=
  { term_exists := fun s => s == "apple"
    do_open_post_list := fun s =>
      if s == "empty-term" then EmptyPostList else { docs := [1, 2], terminated := false }
    open_document := fun _ _ => none
    get_doccount := 2
    get_lastdocid := 2 }

/-- A cursor in the Terminated state (`db == NULL`), as left behind by an
exhausted scan. -/
def deadCursor : ValueRangePostList :=
  { db := none, current := 5, lastdocid := 5, db_size := 5, valno := 0,
    begin := "", end_ := "" }

/-- Backend exhibiting the `check`/`skip_to` disagreement: document 1 opens
lazily with an empty slot-0 value but has vanished (the non-lazy open raises
`DocNotFoundError`). -/
def hazardDb : DatabaseInternal :=
  { term_exists := fun _ => false
    do_open_post_list := fun _ => EmptyPostList
    open_document := fun d lazy => if d = 1 ∧ lazy then some (fun _ => "") else none
    get_doccount := 1
    get_lastdocid := 1 }

/-- Fresh value-range cursor over `hazardDb`, slot 0, range ["", "z"] (an
empty begin bound, so the empty value is inside the range). -/
def hazardCursor : ValueRangePostList := ValueRangePostList.init hazardDb 0 "" "z"

/-- The cursor `check 1` claims to have positioned at document 1. -/
def hazardChecked : ValueRangePostList := { hazardCursor with current := 1 }

/-- The cursor `skip_to 1` actually produces: Terminated without ever
yielding document 1. -/
def hazardDead : ValueRangePostList :=
  { db := none, current := 1, lastdocid := 1, db_size := 1, valno := 0,
    begin := "", end_ := "z" }

/-- Backend with one live document (id 1, slot values "150") used by several
witnesses. -/
def liveDb : DatabaseInternal :=
  { term_exists := fun _ => true
    do_open_post_list := fun _ => { docs := [1], terminated := false }
    open_document := fun d _ => if d = 1 then some (fun _ => "150") else none
    get_doccount := 1
    get_lastdocid := 1 }

/-- Fresh value-range cursor over `liveDb`, slot 3, range ["100", "200"]. -/
def liveCursor : ValueRangePostList := ValueRangePostList.init liveDb 3 "100" "200"

/-- The cursor `liveCursor` after it has advanced to (or checked) document 1. -/
def liveChecked : ValueRangePostList := { liveCursor with current := 1 }

/-- Backend for the C6 witness: document 2 vanished (opens report not-found),
document 1 has an out-of-range value, document 3 matches. -/
def c6Db : DatabaseInternal :=
  { term_exists := fun _ => false
    do_open_post_list := fun _ => EmptyPostList
    open_document := fun d _ =>
      if d = 1 then some (fun _ => "000")
      else if d = 3 then some (fun _ => "150")
      else none
    get_doccount := 3
    get_lastdocid := 3 }

/-- Fresh value-range cursor over `c6Db`, slot 3, range ["100", "200"]. -/
def c6Cursor : ValueRangePostList := ValueRangePostList.init c6Db 3 "100" "200"

theorem nextLoop_stop (db : DatabaseInternal) (valno : Nat) (b e : String) (last cur : Nat)
    (h : ¬ cur < last) :
    nextLoop db valno b e last cur = NextResult.exhausted cur := by
  rw [nextLoop.eq_def]
  simp [h]

theorem nextLoop_step (db : DatabaseInternal) (valno : Nat) (b e : String) (last cur : Nat)
    (h : cur < last) :
    nextLoop db valno b e last cur =
      match db.open_document (cur + 1) true with
      | some doc =>
        if strLE b (doc valno) && strLE (doc valno) e then
          if doc valno = "" then
            match db.open_document (cur + 1) false with
            | some _ => NextResult.positioned (cur + 1)
            | none => nextLoop db valno b e last (cur + 1)
          else NextResult.positioned (cur + 1)
        else nextLoop db valno b e last (cur + 1)
      | none => nextLoop db valno b e last (cur + 1) := by
  conv_lhs => rw [nextLoop.eq_def]
  simp [h]

theorem nextLoop_spec (db : DatabaseInternal) (valno : Nat) (b e : String) (last : Nat) :
    ∀ cur, scanSpec db valno b e last cur := by
  have key : ∀ n cur, last - cur ≤ n → scanSpec db valno b e last cur := by
    intro n
    induction n with
    | zero =>
      intro cur hn
      have hstop : ¬ cur < last := by omega
      constructor
      · intro c hp
        rw [nextLoop_stop db valno b e last cur hstop] at hp
        exact absurd hp (by simp)
      · intro c hp
        rw [nextLoop_stop db valno b e last cur hstop] at hp
        refine ⟨by cases hp; omega, ?_⟩
        intro i hi1 hi2
        omega
    | succ n ih =>
      intro cur hn
      by_cases hlt : cur < last
      case neg =>
        constructor
        · intro c hp
          rw [nextLoop_stop db valno b e last cur hlt] at hp
          exact absurd hp (by simp)
        · intro c hp
          rw [nextLoop_stop db valno b e last cur hlt] at hp
          refine ⟨by cases hp; omega, ?_⟩
          intro i hi1 hi2
          omega
      case pos =>
      have hih := ih (cur + 1) (by omega)
      -- shared continuation: the loop skipped docid cur+1 and recursed
      have cont : nextLoop db valno b e last cur = nextLoop db valno b e last (cur + 1) →
          ¬ nextMatch db valno b e (cur + 1) → scanSpec db valno b e last cur := by
        intro hrec hskip
        constructor
        · intro c hp
          rw [hrec] at hp
          obtain ⟨h1, h2, h3, h4⟩ := hih.1 c hp
          refine ⟨by omega, h2, h3, ?_⟩
          intro i hi1 hi2
          rcases Nat.lt_or_ge (cur + 1) i with hgt | hle
          · exact h4 i hgt hi2
          · have : i = cur + 1 := by omega
            rw [this]
            exact hskip
        · intro c hp
          rw [hrec] at hp
          obtain ⟨h1, h2⟩ := hih.2 c hp
          refine ⟨by omega, ?_⟩
          intro i hi1 hi2
          rcases Nat.lt_or_ge (cur + 1) i with hgt | hle
          · exact h2 i hgt hi2
          · have : i = cur + 1 := by omega
            rw [this]
            exact hskip
      -- shared continuation: the loop stopped positioned at cur+1, which matches
      have stopHere : nextLoop db valno b e last cur = NextResult.positioned (cur + 1) →
          nextMatch db valno b e (cur + 1) → scanSpec db valno b e last cur := by
        intro hpos hmatch
        constructor
        · intro c hp
          rw [hpos] at hp
          cases hp
          refine ⟨by omega, by omega, hmatch, ?_⟩
          intro i hi1 hi2
          omega
        · intro c hp
          rw [hpos] at hp
          exact absurd hp (by simp)
      have hstep := nextLoop_step db valno b e last cur hlt
      cases hopen : db.open_document (cur + 1) true with
      | none =>
        rw [hopen] at hstep
        dsimp only at hstep
        refine cont hstep ?_
        rintro ⟨doc, hdoc, -, -⟩
        rw [hopen] at hdoc
        exact absurd hdoc (by simp)
      | some doc =>
        rw [hopen] at hstep
        dsimp only at hstep
        cases hrange : strLE b (doc valno) && strLE (doc valno) e with
        | false =>
          rw [hrange] at hstep
          simp only [Bool.false_eq_true, if_false] at hstep
          refine cont hstep ?_
          rintro ⟨doc2, hdoc2, hr2, -⟩
          rw [hopen] at hdoc2
          cases hdoc2
          rw [hrange] at hr2
          exact absurd hr2 (by simp)
        | true =>
          rw [hrange] at hstep
          simp only [if_true] at hstep
          by_cases hemp : doc valno = ""
          case pos =>
            rw [if_pos hemp] at hstep
            cases hopen2 : db.open_document (cur + 1) false with
            | none =>
              rw [hopen2] at hstep
              refine cont hstep ?_
              rintro ⟨doc2, hdoc2, -, hne⟩
              rw [hopen] at hdoc2
              cases hdoc2
              exact hne hemp hopen2
            | some doc2 =>
              rw [hopen2] at hstep
              refine stopHere hstep ⟨doc, hopen, hrange, fun _ => by rw [hopen2]; simp⟩
          case neg =>
            rw [if_neg hemp] at hstep
            exact stopHere hstep ⟨doc, hopen, hrange, fun he => absurd he hemp⟩
  intro cur
  exact key (last - cur) cur (Nat.le_refl _)

theorem next_fields (p : ValueRangePostList) (w : Int) (q : ValueRangePostList)
    (h : p.next w = some q) :
    q.db_size = p.db_size ∧ q.lastdocid = p.lastdocid ∧ q.valno = p.valno ∧
      q.begin = p.begin ∧ q.end_ = p.end_ := by
  unfold ValueRangePostList.next at h
  cases hdb : p.db with
  | none => rw [hdb] at h; exact absurd h (by simp)
  | some db =>
    rw [hdb] at h
    dsimp only at h
    cases hloop : nextLoop db p.valno p.begin p.end_ p.lastdocid p.current <;>
      rw [hloop] at h <;> dsimp only at h <;> injection h with h <;> subst h <;>
      exact ⟨rfl, rfl, rfl, rfl, rfl⟩

theorem skip_to_fields (p : ValueRangePostList) (did : Nat) (w : Int)
    (q : ValueRangePostList) (h : p.skip_to did w = some q) :
    q.db_size = p.db_size ∧ q.lastdocid = p.lastdocid ∧ q.valno = p.valno ∧
      q.begin = p.begin ∧ q.end_ = p.end_ := by
  unfold ValueRangePostList.skip_to at h
  cases hdb : p.db with
  | none => rw [hdb] at h; exact absurd h (by simp)
  | some db =>
    rw [hdb] at h
    dsimp only at h
    by_cases hle : did ≤ p.current
    · rw [if_pos hle] at h
      injection h with h
      subst h
      exact ⟨rfl, rfl, rfl, rfl, rfl⟩
    · rw [if_neg hle] at h
      simpa using next_fields _ _ _ h

theorem check_fields (p : ValueRangePostList) (did : Nat) (w : Int)
    (q : ValueRangePostList) (v : Bool) (h : p.check did w = some (q, v)) :
    q.db_size = p.db_size ∧ q.lastdocid = p.lastdocid ∧ q.valno = p.valno ∧
      q.begin = p.begin ∧ q.end_ = p.end_ := by
  unfold ValueRangePostList.check at h
  cases hdb : p.db with
  | none => rw [hdb] at h; exact absurd h (by simp)
  | some db =>
    rw [hdb] at h
    dsimp only at h
    by_cases h1 : did ≤ p.current
    · rw [if_pos h1] at h
      injection h with h
      injection h with h hv
      subst h
      exact ⟨rfl, rfl, rfl, rfl, rfl⟩
    · rw [if_neg h1] at h
      by_cases h2 : p.lastdocid < did
      · rw [if_pos h2] at h
        injection h with h
        injection h with h hv
        subst h
        exact ⟨rfl, rfl, rfl, rfl, rfl⟩
      · rw [if_neg h2] at h
        cases hopen : db.open_document did true with
        | none =>
          rw [hopen] at h
          injection h with h
          injection h with h hv
          subst h
          exact ⟨rfl, rfl, rfl, rfl, rfl⟩
        | some doc =>
          rw [hopen] at h
          dsimp only at h
          by_cases h3 : (strLE p.begin (doc p.valno) && strLE (doc p.valno) p.end_) = true
          · rw [if_pos h3] at h
            injection h with h
            injection h with h hv
            subst h
            exact ⟨rfl, rfl, rfl, rfl, rfl⟩
          · rw [if_neg h3] at h
            injection h with h
            injection h with h hv
            subst h
            exact ⟨rfl, rfl, rfl, rfl, rfl⟩

theorem next_eq (p : ValueRangePostList) (db : DatabaseInternal) (hdb : p.db = some db)
    (w : Int) :
    p.next w =
      match nextLoop db p.valno p.begin p.end_ p.lastdocid p.current with
      | NextResult.positioned c => some { p with current := c }
      | NextResult.exhausted c => some { p with current := c, db := none } := by
  unfold ValueRangePostList.next
  rw [hdb]

theorem skip_to_eq (p : ValueRangePostList) (db : DatabaseInternal) (hdb : p.db = some db)
    (did : Nat) (w : Int) :
    p.skip_to did w =
      if did ≤ p.current then some p
      else ValueRangePostList.next { p with current := did - 1 } w := by
  unfold ValueRangePostList.skip_to
  rw [hdb]

theorem check_eq (p : ValueRangePostList) (db : DatabaseInternal) (hdb : p.db = some db)
    (did : Nat) (w : Int) :
    p.check did w =
      if did ≤ p.current then some (p, true)
      else if p.lastdocid < did then some ({ p with db := none }, true)
      else
        match db.open_document did true with
        | some doc =>
          if strLE p.begin (doc p.valno) && strLE (doc p.valno) p.end_ then
            some ({ p with current := did }, true)
          else some ({ p with current := did }, false)
        | none => some ({ p with current := did }, false) := by
  unfold ValueRangePostList.check
  rw [hdb]

/-- C1: for every term `t` with `term_exists t = false`, `open_post_list t`
returns an empty posting-list cursor that is immediately terminated (yields
zero documents) rather than failing, and the result is indistinguishable from
that for any other non-existent term `u` and from that for a term `v` whose
true posting list is empty. -/
theorem open_post_list_absent_term (d : DatabaseInternal) (t u v : String)
    (ht : d.term_exists t = false) (hu : d.term_exists u = false)
    (hv : d.do_open_post_list v = EmptyPostList) :
    (d.open_post_list t).terminated = true ∧ (d.open_post_list t).docs = [] ∧
      d.open_post_list u = d.open_post_list t ∧
      d.open_post_list v = d.open_post_list t := by
  unfold DatabaseInternal.open_post_list
  rw [ht, hu]
  refine ⟨rfl, rfl, rfl, ?_⟩
  by_cases hve : d.term_exists v
  · rw [hve]
    simpa using hv
  · simp [hve]

theorem open_post_list_absent_term_witness :
    (c1Db.open_post_list "pear").terminated = true ∧
      (c1Db.open_post_list "pear").docs = [] ∧
      c1Db.open_post_list "plum" = c1Db.open_post_list "pear" ∧
      c1Db.open_post_list "empty-term" = c1Db.open_post_list "pear" :=
  open_post_list_absent_term c1Db "pear" "plum" "empty-term" (by decide) (by decide) (by decide)

/-- C2 counterexample: advancing a Terminated cursor is not performed as a
no-op; `next` and `skip_to` on a cursor with `db == NULL` fail the `Assert(db)`
programming-error check and return no successor state at all. -/
theorem terminated_advance_not_noop_cex :
    deadCursor.at_end = true ∧ deadCursor.next 0 = none ∧ deadCursor.skip_to 3 0 = none ∧
      ¬ ∃ q, deadCursor.next 0 = some q := by
  refine ⟨rfl, rfl, rfl, ?_⟩
  rintro ⟨q, hq⟩
  rw [show deadCursor.next 0 = none from rfl] at hq
  exact absurd hq (by simp)

/-- C2 amended: `at_end` is a pure query (idempotent between advances), and
Terminated is absorbing in that no operation ever yields an un-Terminated
successor — but advancing (or checking) a Terminated cursor is rejected by the
`Assert(db)` programming-error signal rather than performed as a no-op. -/
theorem terminated_rejects_advance (p : ValueRangePostList) (h : p.at_end = true)
    (d : Nat) (w : Int) :
    p.db = none ∧ p.next w = none ∧ p.skip_to d w = none ∧ p.check d w = none := by
  have hdb : p.db = none := by
    unfold ValueRangePostList.at_end at h
    exact Option.isNone_iff_eq_none.mp h
  refine ⟨hdb, ?_, ?_, ?_⟩
  · unfold ValueRangePostList.next
    rw [hdb]
  · unfold ValueRangePostList.skip_to
    rw [hdb]
  · unfold ValueRangePostList.check
    rw [hdb]

theorem terminated_rejects_advance_witness :
    deadCursor.db = none ∧ deadCursor.next 0 = none ∧ deadCursor.skip_to 3 0 = none ∧
      deadCursor.check 3 0 = none :=
  terminated_rejects_advance deadCursor rfl 3 0

/-- C3: the default implementations of the mutation operations (`flush`,
`add_document`, `delete_document`, `replace_document`) on a backend that does
not override them reject the call with the `Assert(false)` programming-error
signal; none of them silently completes as a no-op. -/
theorem mutation_defaults_signal (d : DatabaseInternal) (doc : DocValues) (did : Nat) :
    d.flush = none ∧ d.add_document doc = none ∧ d.delete_document did = none ∧
      d.replace_document did doc = none :=
  ⟨rfl, rfl, rfl, rfl⟩

/-- C4: on a non-terminated cursor, `skip_to d w` is a no-op when the cursor
is already at or past `d`; otherwise it yields a cursor that is either
Terminated or positioned at a docid `c ≥ d` whose document satisfies the
value-range predicate (`nextMatch`). -/
theorem skip_to_advances_to_match (p : ValueRangePostList) (db : DatabaseInternal)
    (hdb : p.db = some db) (d : Nat) (w : Int) :
    (d ≤ p.current → p.skip_to d w = some p) ∧
    (p.current < d →
      ∃ q, p.skip_to d w = some q ∧
        (q.at_end = true ∨
          ∃ c, q.get_docid = some c ∧ d ≤ c ∧ nextMatch db p.valno p.begin p.end_ c)) := by
  constructor
  · intro hle
    rw [skip_to_eq p db hdb d w, if_pos hle]
  · intro hlt
    rw [skip_to_eq p db hdb d w, if_neg (by omega : ¬ d ≤ p.current)]
    rw [next_eq { p with current := d - 1 } db hdb w]
    dsimp only
    rcases hloop : nextLoop db p.valno p.begin p.end_ p.lastdocid (d - 1) with c | c
    · obtain ⟨h1, h2, h3, -⟩ :=
        (nextLoop_spec db p.valno p.begin p.end_ p.lastdocid (d - 1)).1 c hloop
      refine ⟨_, rfl, Or.inr ⟨c, ?_, by omega, h3⟩⟩
      have hc0 : c ≠ 0 := by omega
      simp [ValueRangePostList.get_docid, hdb, hc0]
    · exact ⟨_, rfl, Or.inl rfl⟩

theorem skip_to_advances_to_match_witness :
    ∃ q, liveCursor.skip_to 1 0 = some q ∧
      (q.at_end = true ∨
        ∃ c, q.get_docid = some c ∧ 1 ≤ c ∧
          nextMatch liveDb liveCursor.valno liveCursor.begin liveCursor.end_ c) :=
  (skip_to_advances_to_match liveCursor liveDb rfl 1 0).2 (by decide)

/-- C6: a document that vanishes between posting-list enumeration and value
lookup (the lazy existence probe reports not-found) is treated as "does not
match, keep advancing": `next` succeeds, does not stop on the vanished docid,
and does not terminate while a later matching document remains; `check` on
the vanished docid reports no-match (`valid = false`) without failing and
without terminating the cursor. -/
theorem vanished_document_skipped (p : ValueRangePostList) (db : DatabaseInternal)
    (hdb : p.db = some db) (d : Nat) (w : Int)
    (hvanish : db.open_document d true = none)
    (hm : ∃ m, p.current < m ∧ m ≤ p.lastdocid ∧ nextMatch db p.valno p.begin p.end_ m)
    (hcur : p.current < d) (hlast : d ≤ p.lastdocid) :
    (∃ q, p.next w = some q ∧ q.at_end = false ∧ q.current ≠ d) ∧
      p.check d w = some ({ p with current := d }, false) := by
  constructor
  · rw [next_eq p db hdb w]
    rcases hloop : nextLoop db p.valno p.begin p.end_ p.lastdocid p.current with c | c
    · obtain ⟨-, -, hmc, -⟩ :=
        (nextLoop_spec db p.valno p.begin p.end_ p.lastdocid p.current).1 c hloop
      refine ⟨_, rfl, by simp [ValueRangePostList.at_end, hdb], ?_⟩
      intro hcd
      obtain ⟨doc, hdoc, -, -⟩ := hmc
      rw [show ({ p with current := c } : ValueRangePostList).current = c from rfl, hcd] at *
      rw [hvanish] at hdoc
      exact absurd hdoc (by simp)
    · exfalso
      obtain ⟨-, hnone⟩ :=
        (nextLoop_spec db p.valno p.begin p.end_ p.lastdocid p.current).2 c hloop
      obtain ⟨m, hm1, hm2, hm3⟩ := hm
      exact hnone m hm1 hm2 hm3
  · rw [check_eq p db hdb d w, if_neg (by omega : ¬ d ≤ p.current),
      if_neg (by omega : ¬ p.lastdocid < d), hvanish]

theorem vanished_document_skipped_witness :
    (∃ q, c6Cursor.next 0 = some q ∧ q.at_end = false ∧ q.current ≠ 2) ∧
      c6Cursor.check 2 0 = some ({ c6Cursor with current := 2 }, false) :=
  vanished_document_skipped c6Cursor c6Db rfl 2 0 rfl
    ⟨3, by decide, by decide, ⟨fun _ => "150", rfl, by decide, fun h => absurd h (by decide)⟩⟩
    (by decide) (by decide)

/-- C7: the value-range cursor over slot 3 with range ["100", "200"] on the
five-document collection with slot-3 values "050", "150", "200", "250", ""
(docids 1-5) yields exactly docids 2 and 3, in that order, and is then
Terminated, with `current` having passed docid 5. -/
theorem value_range_demo_run :
    demoCursor.next 0 = some (demoAt 2) ∧ (demoAt 2).get_docid = some 2 ∧
      (demoAt 2).at_end = false ∧
      (demoAt 2).next 0 = some (demoAt 3) ∧ (demoAt 3).get_docid = some 3 ∧
      (demoAt 3).at_end = false ∧
      (demoAt 3).next 0 = some demoDead ∧ demoDead.at_end = true ∧
      demoDead.current = 5 ∧ demoDead.next 0 = none := by
  refine ⟨?_, by decide, by decide, ?_, by decide, by decide, ?_, by decide, by decide, rfl⟩ <;>
    simp [demoCursor, ValueRangePostList.init, ValueRangePostList.next, demoAt, demoDead,
      demoDb, nextLoop, demoValues, strLE, bytesLE]

/-- C5 counterexample: on `hazardDb` (document 1 opens lazily with an empty
in-range value but has vanished for the non-lazy open), `check 1` reports a
definite match (`valid = true`, positioned at docid 1) while `skip_to 1` from
the same state skips document 1 and terminates — so a definite `check` answer
is not always confirmed by `skip_to`. -/
theorem check_skip_to_disagree_cex :
    hazardCursor.check 1 0 = some (hazardChecked, true) ∧
      hazardChecked.at_end = false ∧ hazardChecked.get_docid = some 1 ∧
      hazardCursor.skip_to 1 0 = some hazardDead ∧
      hazardDead.at_end = true ∧ hazardDead.get_docid = none := by
  refine ⟨?_, by decide, by decide, ?_, by decide, by decide⟩
  · simp [hazardCursor, ValueRangePostList.init, ValueRangePostList.check, hazardChecked,
      hazardDb, strLE, bytesLE]
  · simp [hazardCursor, ValueRangePostList.init, ValueRangePostList.skip_to,
      ValueRangePostList.next, hazardDead, hazardDb, nextLoop, strLE, bytesLE]

/-- C5 amended: whenever `check d w` reports a definite answer
(`valid = true`), `skip_to d w` from the same state agrees — both no-op, both
terminate, or both confirm the same position — except in the `checkHazard`
configuration (the lazy open of `d` yields an empty value lying inside the
range while the document has vanished for the non-lazy open), where `check`
reports a definite match that `skip_to` would skip. -/
theorem check_definite_agrees_skip_to (p : ValueRangePostList) (db : DatabaseInternal)
    (hdb : p.db = some db) (d : Nat) (w : Int)
    (hnohaz : ¬ checkHazard db p.valno p.begin p.end_ d)
    (q : ValueRangePostList) (hchk : p.check d w = some (q, true)) :
    ∃ r, p.skip_to d w = some r ∧ ((q.at_end = true ∧ r.at_end = true) ∨ r = q) := by
  rw [check_eq p db hdb d w] at hchk
  rw [skip_to_eq p db hdb d w]
  by_cases h1 : d ≤ p.current
  · rw [if_pos h1] at hchk ⊢
    injection hchk with hchk
    injection hchk with hq hsnd
    exact ⟨p, rfl, Or.inr hq⟩
  · rw [if_neg h1] at hchk ⊢
    by_cases h2 : p.lastdocid < d
    · rw [if_pos h2] at hchk
      injection hchk with hchk
      injection hchk with hq hsnd
      rw [next_eq { p with current := d - 1 } db hdb w]
      dsimp only
      rw [nextLoop_stop db p.valno p.begin p.end_ p.lastdocid (d - 1) (by omega)]
      refine ⟨_, rfl, Or.inl ⟨?_, rfl⟩⟩
      rw [← hq]
      rfl
    · rw [if_neg h2] at hchk
      cases hopen : db.open_document d true with
      | none =>
        rw [hopen] at hchk
        injection hchk with hchk
        injection hchk with hfst hv
        exact absurd hv (by simp)
      | some doc =>
        rw [hopen] at hchk
        dsimp only at hchk
        by_cases hr : (strLE p.begin (doc p.valno) && strLE (doc p.valno) p.end_) = true
        · rw [if_pos hr] at hchk
          injection hchk with hchk
          injection hchk with hq hsnd
          rw [next_eq { p with current := d - 1 } db hdb w]
          dsimp only
          have hd1 : d - 1 + 1 = d := by omega
          have hstep := nextLoop_step db p.valno p.begin p.end_ p.lastdocid (d - 1)
            (by omega : d - 1 < p.lastdocid)
          rw [hd1, hopen] at hstep
          dsimp only at hstep
          rw [if_pos hr] at hstep
          by_cases hemp : doc p.valno = ""
          · rw [if_pos hemp] at hstep
            cases hopen2 : db.open_document d false with
            | none => exact absurd ⟨doc, hopen, hemp, hr, hopen2⟩ hnohaz
            | some doc2 =>
              rw [hopen2] at hstep
              dsimp only at hstep
              rw [hstep]
              refine ⟨_, rfl, Or.inr ?_⟩
              rw [← hq]
          · rw [if_neg hemp] at hstep
            rw [hstep]
            refine ⟨_, rfl, Or.inr ?_⟩
            rw [← hq]
        · rw [if_neg hr] at hchk
          injection hchk with hchk
          injection hchk with hfst hv
          exact absurd hv (by simp)

theorem check_definite_agrees_skip_to_witness :
    ∃ r, liveCursor.skip_to 1 0 = some r ∧
      ((liveChecked.at_end = true ∧ r.at_end = true) ∨ r = liveChecked) := by
  refine check_definite_agrees_skip_to liveCursor liveDb rfl 1 0 ?_ liveChecked ?_
  · rintro ⟨doc, hdoc, hemp, -, -⟩
    simp [liveCursor, ValueRangePostList.init, liveDb] at hdoc
    rw [← hdoc] at hemp
    exact absurd hemp (by decide)
  · simp [liveCursor, ValueRangePostList.init, ValueRangePostList.check, liveChecked,
      liveDb, strLE, bytesLE]

/-- C8: at every point in a cursor's lifetime the termfreq triple is ordered
(min ≤ est ≤ max), and no advancing operation — `next`, `skip_to` or `check`
— increases any of the three: they are computed from the immutable `db_size`
snapshot, so they stay equal (hence are non-increasing) as the cursor
advances. -/
theorem termfreq_bounds_monotone (p q : ValueRangePostList) (d : Nat) (w : Int) (v : Bool)
    (h : p.next w = some q ∨ p.skip_to d w = some q ∨ p.check d w = some (q, v)) :
    (p.get_termfreq_min ≤ p.get_termfreq_est ∧ p.get_termfreq_est ≤ p.get_termfreq_max) ∧
      (q.get_termfreq_min ≤ q.get_termfreq_est ∧ q.get_termfreq_est ≤ q.get_termfreq_max) ∧
      q.get_termfreq_min ≤ p.get_termfreq_min ∧ q.get_termfreq_est ≤ p.get_termfreq_est ∧
      q.get_termfreq_max ≤ p.get_termfreq_max := by
  have hsize : q.db_size = p.db_size := by
    rcases h with h | h | h
    · exact (next_fields p w q h).1
    · exact (skip_to_fields p d w q h).1
    · exact (check_fields p d w q v h).1
  unfold ValueRangePostList.get_termfreq_min ValueRangePostList.get_termfreq_est
    ValueRangePostList.get_termfreq_max
  rw [hsize]
  exact ⟨⟨Nat.zero_le _, Nat.div_le_self _ _⟩, ⟨Nat.zero_le _, Nat.div_le_self _ _⟩,
    Nat.le_refl _, Nat.le_refl _, Nat.le_refl _⟩

theorem termfreq_bounds_monotone_witness :
    (liveCursor.get_termfreq_min ≤ liveCursor.get_termfreq_est ∧
        liveCursor.get_termfreq_est ≤ liveCursor.get_termfreq_max) ∧
      (liveChecked.get_termfreq_min ≤ liveChecked.get_termfreq_est ∧
        liveChecked.get_termfreq_est ≤ liveChecked.get_termfreq_max) ∧
      liveChecked.get_termfreq_min ≤ liveCursor.get_termfreq_min ∧
      liveChecked.get_termfreq_est ≤ liveCursor.get_termfreq_est ∧
      liveChecked.get_termfreq_max ≤ liveCursor.get_termfreq_max :=
  termfreq_bounds_monotone liveCursor liveChecked 1 0 true
    (Or.inl (by
      simp [liveCursor, ValueRangePostList.init, ValueRangePostList.next, liveChecked,
        liveDb, nextLoop, strLE, bytesLE]))

/-- C9: on a live (non-terminated) cursor both position-list factories
succeed and return the NULL position list, which denotes the empty position
sequence — a value-range predicate has no positional concept, and the lookup
does not fail. -/
theorem position_list_empty_not_failing (p : ValueRangePostList) (db : DatabaseInternal)
    (hdb : p.db = some db) :
    (∃ r, p.read_position_list = some r ∧ positionsOf r = []) ∧
      ∃ r, p.open_position_list = some r ∧ positionsOf r = [] := by
  unfold ValueRangePostList.read_position_list ValueRangePostList.open_position_list
  rw [hdb]
  exact ⟨⟨none, rfl, rfl⟩, ⟨none, rfl, rfl⟩⟩

theorem position_list_empty_not_failing_witness :
    (∃ r, liveCursor.read_position_list = some r ∧ positionsOf r = []) ∧
      ∃ r, liveCursor.open_position_list = some r ∧ positionsOf r = [] :=
  position_list_empty_not_failing liveCursor liveDb rfl

/-- C10: the weight interface of a value-range cursor is identically zero —
`get_maxweight` in every state, `get_weight` and `recalc_maxweight` in every
state passing their `Assert(db)` — and the `min_weight` argument of `next`,
`skip_to` and `check` has no effect on the result. -/
theorem weights_zero_minweight_ignored (p : ValueRangePostList) (db : DatabaseInternal)
    (hdb : p.db = some db) (d : Nat) (w w' : Int) :
    p.get_maxweight = 0 ∧ p.get_weight = some 0 ∧ p.recalc_maxweight = some 0 ∧
      p.next w = p.next w' ∧ p.skip_to d w = p.skip_to d w' ∧ p.check d w = p.check d w' := by
  refine ⟨rfl, ?_, ?_, rfl, rfl, rfl⟩
  · unfold ValueRangePostList.get_weight
    rw [hdb]
  · unfold ValueRangePostList.recalc_maxweight
    rw [hdb]

theorem weights_zero_minweight_ignored_witness :
    liveCursor.get_maxweight = 0 ∧ liveCursor.get_weight = some 0 ∧
      liveCursor.recalc_maxweight = some 0 ∧
      liveCursor.next 5 = liveCursor.next (-7) ∧
      liveCursor.skip_to 1 5 = liveCursor.skip_to 1 (-7) ∧
      liveCursor.check 1 5 = liveCursor.check 1 (-7) :=
  weights_zero_minweight_ignored liveCursor liveDb rfl 1 5 (-7)

end Xapian
